import Mathlib

/-!
Shallow embedding of the code-execution sandbox in
`app_agents/tools/python_tool.py` (classes `CodeValidator` and
`PythonSandboxTool`).

Modelling conventions:

* Python strings are Lean `String`s; `s.split(".")[0]` is `topLevel`,
  `s.startswith`/`s.endswith` are `strStartsWith`/`strEndsWith`, defined by
  recursion on the character lists so they can be reasoned about directly.
* A parsed source is a list of the syntax-tree nodes to which the visitor methods of the validator react (`visit_Import`, `visit_ImportFrom`,
  `visit_Name`, `visit_Attribute`), in walk order.  `visit_Name` receives
  the expression context (Load/Store/Del) on the node, which the source
  code never inspects; the context is carried in the embedding so that
  context-independence is a provable statement.
* The dynamic behaviour of a validated program (how long `exec` runs, what
  it writes to stdout/stderr, which figures it opens, whether it raises,
  and what it binds to `df`/`result`) is an input of the model
  (`RunBehavior`): the embedding is about the sandbox driver, not about
  the Python interpreter.
* Wall-clock time is modelled in whole seconds.  `future.result(timeout)`
  raises a timeout exactly when the running time of the worker exceeds the
  bound, and — because `with ThreadPoolExecutor(...)` ends by
  `shutdown(wait=True)`, which joins the worker thread — the call itself
  returns only once the worker has finished, so the elapsed time of a
  timed-out call is the full running time of the submitted code.
* The matplotlib set of open figures is process-global state: `execute`
  takes the list of figures open before the call and returns the list
  open after it.  Faults that the CPython runtime can raise inside the
  driver itself (a failing `compile`, `DataFrame.to_dict`, or
  `Figure.savefig`) are modelled as optional fault annotations carried by
  the corresponding values.
-/

/-- Characters of a string before the first dot: Python `s.split(".")[0]`. -/
def beforeDot : List Char → List Char
  | [] => []
  | c :: cs => if c = '.' then [] else c :: beforeDot cs

/-- Python `name.split(".")[0]`: the top-level module of a dotted name. -/
def topLevel (s : String) : String :=
  ⟨beforeDot s.data⟩

/-- Whether the first list is an initial segment of the second. -/
def isLeadOf : List Char → List Char → Bool
  | [], _ => true
  | _ :: _, [] => false
  | a :: as, b :: bs => a == b && isLeadOf as bs

/-- Python `s.startswith(pre)`. -/
def strStartsWith (s pre : String) : Bool :=
  isLeadOf pre.data s.data

/-- Python `s.endswith(suf)`. -/
def strEndsWith (s suf : String) : Bool :=
  isLeadOf suf.data.reverse s.data.reverse

/-- Python `"\n".join(lines)`. -/
def joinLines : List String → String
  | [] => ""
  | [e] => e
  | e :: rest => e ++ "\n" ++ joinLines rest

/-- The needle occurs as a contiguous substring of the haystack. -/
def strMentions (hay needle : String) : Prop :=
  ∃ pre post : List Char, hay.data = pre ++ needle.data ++ post

/-- CodeValidator.BLOCKED_NAMES. -/
def BLOCKED_NAMES : List String :=
  ["eval", "exec", "compile",
   "open", "file", "input", "raw_input",
   "execfile", "reload", "breakpoint",
   "exit", "quit", "help"]

/-- CodeValidator.BLOCKED_MODULES. -/
def BLOCKED_MODULES : List String :=
  ["os", "sys", "subprocess", "socket", "urllib",
   "requests", "http", "ftplib", "telnetlib",
   "pickle", "shelve", "marshal", "importlib"]

/-- Expression context of a Python Name node (ast.Load / ast.Store / ast.Del). -/
inductive ExprCtx
  | load
  | store
  | del
  deriving DecidableEq, Repr

/-- The syntax-tree nodes to which the visitor methods of the validator react. -/
inductive PyNode
  /-- An `import a, b.c` statement; the list holds the dotted name of each alias. -/
  | importStmt (aliases : List String)
  /-- A `from M import ...` statement; `none` models a relative `from . import x`. -/
  | importFrom (module : Option String)
  /-- A bare identifier occurrence, with its expression context. -/
  | nameRef (id : String) (ctx : ExprCtx)
  /-- An attribute access `obj.attr`; only the attribute name is checked. -/
  | attributeAccess (attr : String)
  deriving DecidableEq, Repr

/-- Violations one node contributes: the bodies of CodeValidator.visit_Import,
visit_ImportFrom, visit_Name and visit_Attribute. -/
def nodeErrors : PyNode → List String
  | .importStmt aliases =>
      (aliases.filter (fun a => BLOCKED_MODULES.contains (topLevel a))).map
        (fun a => "Import of \x27" ++ a ++ "\x27 is not allowed")
  | .importFrom mod =>
      match mod with
      | some m =>
          if BLOCKED_MODULES.contains (topLevel m) then
            ["Import from \x27" ++ m ++ "\x27 is not allowed"]
          else []
      | none => []
  | .nameRef id _ctx =>
      if BLOCKED_NAMES.contains id then
        ["Use of \x27" ++ id ++ "\x27 is not allowed"]
      else []
  | .attributeAccess attr =>
      if strStartsWith attr "__" && strEndsWith attr "__" &&
         !(attr = "__init__" || attr = "__str__" || attr = "__repr__") then
        ["Access to \x27" ++ attr ++ "\x27 is not allowed"]
      else []

/-- CodeValidator: walk the tree collecting all violations in order. -/
def validate : List PyNode → List String
  | [] => []
  | n :: rest => nodeErrors n ++ validate rest

/-- Handles of the four pre-loaded libraries of PythonSandboxTool. -/
inductive ModuleHandle
  | pandasMod
  | numpyMod
  | matplotlibMod
  | seabornMod
  deriving DecidableEq, Repr

/-- PythonSandboxTool._safe_import: the import interceptor installed as the
restricted namespace as its `__import__`.  Returns the pre-loaded handle
or raises an ImportError (modelled as `Except.error` with the message). -/
def safe_import (name : String) : Except String ModuleHandle :=
  if name = "pandas" then .ok .pandasMod
  else if name = "numpy" then .ok .numpyMod
  else if name = "matplotlib" then .ok .matplotlibMod
  else if name = "seaborn" then .ok .seabornMod
  else if strStartsWith name "matplotlib." then .ok .matplotlibMod
  else if BLOCKED_MODULES.contains (topLevel name) then
    .error ("Import of \x27" ++ name ++ "\x27 is not allowed for security reasons")
  else
    .error ("Cannot import \x27" ++ name ++
      "\x27. Only pandas, numpy, matplotlib, and seaborn are allowed.")

/-- Classification of a Python float value (arithmetic on finite values is
not needed by the sandbox driver, only the NaN/infinity tests). -/
inductive PyFloat
  | finite (val : Int)
  | nan
  | inf
  | negInf
  deriving DecidableEq, Repr

/-- Value wrapped inside a numpy scalar (`np.generic`); `.item()` unwraps it. -/
inductive NpValue
  | npFloat (f : PyFloat)
  | npInt (n : Int)
  | npBool (b : Bool)
  deriving DecidableEq, Repr

/-- A cell value of a DataFrame record, as seen by `_make_json_safe_records`. -/
inductive Cell
  | pyNone
  | pyBool (b : Bool)
  | pyInt (n : Int)
  | pyFloat (f : PyFloat)
  | pyStr (s : String)
  /-- A pandas.Timestamp; `isoformat()` yields the stored string. -/
  | timestamp (iso : String)
  /-- A datetime.datetime; `isoformat()` yields the stored string. -/
  | dtime (iso : String)
  /-- A numpy scalar. -/
  | npScalar (v : NpValue)
  /-- Any other Python object (list, dict, arbitrary instance): the
  conversion has no case for these and returns them unchanged. -/
  | pyObj (tag : String)
  deriving DecidableEq, Repr

/-- The inner `to_safe` of `_make_json_safe_records`. -/
def to_safe : Cell → Cell
  | .timestamp iso => .pyStr iso
  | .dtime iso => .pyStr iso
  | .npScalar v =>
      match v with
      | .npFloat f =>
          match f with
          | .finite x => .pyFloat (.finite x)
          | .nan => .pyNone
          | .inf => .pyNone
          | .negInf => .pyNone
      | .npInt n => .pyInt n
      | .npBool b => .pyBool b
  | .pyFloat f =>
      match f with
      | .finite x => .pyFloat (.finite x)
      | .nan => .pyNone
      | .inf => .pyNone
      | .negInf => .pyNone
  | c => c

/-- Whether a cell value is a JSON primitive: string, finite number,
boolean, or null. -/
def isJsonPrim : Cell → Bool
  | .pyNone => true
  | .pyBool _ => true
  | .pyInt _ => true
  | .pyFloat (.finite _) => true
  | .pyStr _ => true
  | _ => false

/-- One record of `DataFrame.to_dict("records")`: column name to cell. -/
def Record : Type := List (String × Cell)

instance : DecidableEq Record := inferInstanceAs (DecidableEq (List (String × Cell)))

instance : Repr Record := inferInstanceAs (Repr (List (String × Cell)))

/-- PythonSandboxTool._make_json_safe_records. -/
def make_json_safe_records (records : List Record) : List Record :=
  records.map (fun rec => rec.map (fun kv => (kv.1, to_safe kv.2)))

/-- A DataFrame value bound in the namespace: its records, plus an optional
fault standing for `head(5).to_dict("records")` raising at extraction time. -/
structure DataFrame where
  rows : List Record
  convFault : Option String := none
  deriving DecidableEq, Repr

/-- What a conventional result name (`df` / `result`) is bound to after the run. -/
inductive Binding
  /-- Bound to a pandas DataFrame. -/
  | dataFrame (d : DataFrame)
  /-- Bound, but to a value that is not a DataFrame. -/
  | nonDataFrame
  /-- Not bound at all. -/
  | absent
  deriving DecidableEq, Repr

/-- An open matplotlib figure: the base64 string its PNG encodes to, plus an
optional fault standing for `savefig` raising on it. -/
structure Figure where
  encoding : String
  savefigFault : Option String := none
  deriving DecidableEq, Repr

/-- How the `exec` of the submitted code ends (its duration is carried separately). -/
inductive ExecOutcome
  /-- The code raises an exception with this message. -/
  | raised (msg : String)
  /-- The code runs to completion, leaving these bindings for `df` and `result`. -/
  | completed (dfBind : Binding) (resBind : Binding)
  deriving DecidableEq, Repr

/-- Dynamic behaviour of a validated, compiled program when run with `exec` in the
sandbox namespace. -/
structure RunBehavior where
  /-- Wall-clock seconds the worker needs to finish (complete or raise). -/
  duration : Nat
  /-- Text written to the captured stdout. -/
  stdoutText : String
  /-- Text written to the captured stderr. -/
  stderrText : String
  /-- Figures the code opens (they are process-global matplotlib state). -/
  figsCreated : List Figure
  /-- Whether the code raises or completes, and what it binds. -/
  outcome : ExecOutcome
  deriving DecidableEq, Repr

/-- A source string as `execute` sees it: either `ast.parse` raises a
SyntaxError, or it yields a tree (the validator-relevant nodes) together
with the dynamic behaviour of the program; `compileFault` models the `compile`
builtin itself raising on the validated tree. -/
inductive ParsedSource
  | syntaxError (msg : String)
  | parsed (nodes : List PyNode) (compileFault : Option String) (behavior : RunBehavior)
  deriving DecidableEq, Repr

/-- The result dictionary PythonSandboxTool.execute returns: exactly the
fields success, output, error, dataframe, images. -/
structure ExecResult where
  success : Bool
  output : String
  error : String
  dataframe : Option (List Record)
  images : List String
  deriving DecidableEq, Repr

/-- One call of `execute` together with its external effects: the returned
dictionary, the matplotlib figures still open afterwards, and the
wall-clock seconds until the call returns. -/
structure CallResult where
  result : ExecResult
  figsAfter : List Figure
  elapsed : Nat
  deriving DecidableEq, Repr

/-- Extraction of the dataframe field: `df` is preferred over `result`, and
only DataFrame values count; a conversion fault raises. -/
def extractRecords : Binding → Binding → Except String (Option (List Record))
  | .dataFrame d, _ =>
      match d.convFault with
      | some m => .error m
      | none => .ok (some (make_json_safe_records (d.rows.take 5)))
  | _, .dataFrame d =>
      match d.convFault with
      | some m => .error m
      | none => .ok (some (make_json_safe_records (d.rows.take 5)))
  | _, _ => .ok none

/-- Encoding loop over the open figures, in order: the images successfully
appended, and the message of the first `savefig` fault if one occurs. -/
def encodeFigures : List Figure → List String × Option String
  | [] => ([], none)
  | f :: rest =>
      match f.savefigFault with
      | some m => ([], some m)
      | none =>
          let e := encodeFigures rest
          (f.encoding :: e.1, e.2)

/-- Error text of the runtime-error branch: the exception message with any
captured stderr appended on a new line. -/
def runtimeErrorMsg (msg stderrText : String) : String :=
  "Runtime error: " ++ msg ++ (if stderrText = "" then "" else "\n" ++ stderrText)

/-- PythonSandboxTool.execute.  `timeoutSec` is the construction-time
timeout, `figs0` the matplotlib figures open before the call, `src` the
submitted code.  The file path is bound into the namespace unchanged and
has no observable effect beyond what the behaviour value already carries. -/
def execute (timeoutSec : Nat) (_filePath : Option String) (figs0 : List Figure)
    (src : ParsedSource) : CallResult :=
  match src with
  | .syntaxError msg =>
      { result := { success := false, output := "", error := "Syntax error: " ++ msg,
                    dataframe := none, images := [] },
        figsAfter := figs0, elapsed := 0 }
  | .parsed nodes compileFault behavior =>
      let errors := validate nodes
      if errors.isEmpty then
        match compileFault with
        | some msg =>
            { result := { success := false, output := "",
                          error := "Sandbox error: " ++ msg,
                          dataframe := none, images := [] },
              figsAfter := figs0, elapsed := 0 }
        | none =>
            if timeoutSec < behavior.duration then
              { result := { success := false, output := "",
                            error := "Execution timeout: Code took longer than "
                              ++ toString timeoutSec ++ " seconds",
                            dataframe := none, images := [] },
                figsAfter := figs0 ++ behavior.figsCreated,
                elapsed := behavior.duration }
            else
              match behavior.outcome with
              | .raised msg =>
                  { result := { success := false, output := "",
                                error := runtimeErrorMsg msg behavior.stderrText,
                                dataframe := none, images := [] },
                    figsAfter := figs0 ++ behavior.figsCreated,
                    elapsed := behavior.duration }
              | .completed dfBind resBind =>
                  match extractRecords dfBind resBind with
                  | .error msg =>
                      { result := { success := false, output := behavior.stdoutText,
                                    error := runtimeErrorMsg msg behavior.stderrText,
                                    dataframe := none, images := [] },
                        figsAfter := figs0 ++ behavior.figsCreated,
                        elapsed := behavior.duration }
                  | .ok dfOpt =>
                      let allFigs := figs0 ++ behavior.figsCreated
                      let enc := encodeFigures allFigs
                      match enc.2 with
                      | some msg =>
                          { result := { success := false, output := behavior.stdoutText,
                                        error := runtimeErrorMsg msg behavior.stderrText,
                                        dataframe := dfOpt, images := enc.1 },
                            figsAfter := allFigs, elapsed := behavior.duration }
                      | none =>
                          { result := { success := true, output := behavior.stdoutText,
                                        error := "", dataframe := dfOpt, images := enc.1 },
                            figsAfter := [], elapsed := behavior.duration }
      else
        { result := { success := false, output := "",
                      error := "Security validation failed:\n" ++ joinLines errors,
                      dataframe := none, images := [] },
          figsAfter := figs0, elapsed := 0 }

/-! Helper lemmas about the string model. -/

theorem isLeadOf_iff (p : List Char) : ∀ s : List Char, isLeadOf p s = true ↔ ∃ t, s = p ++ t := by
  induction p with
  | nil => intro s; simp [isLeadOf]
  | cons a as ih =>
    intro s
    cases s with
    | nil => simp [isLeadOf]
    | cons b bs =>
      simp only [isLeadOf, Bool.and_eq_true, beq_iff_eq, ih bs, List.cons_append,
        List.cons.injEq]
      constructor
      · rintro ⟨rfl, t, rfl⟩; exact ⟨t, rfl, rfl⟩
      · rintro ⟨t, rfl, rfl⟩; exact ⟨rfl, t, rfl⟩

theorem beforeDot_append (pre rest : List Char) (h : '.' ∉ pre) :
    beforeDot (pre ++ '.' :: rest) = pre := by
  induction pre with
  | nil => simp [beforeDot]
  | cons c cs ih =>
    have hc : c ≠ '.' := fun hc => h (hc ▸ List.mem_cons_self c cs)
    have ih2 := ih (fun hm => h (List.mem_cons_of_mem c hm))
    show beforeDot (c :: (cs ++ '.' :: rest)) = c :: cs
    rw [beforeDot, if_neg hc, ih2]

theorem beforeDot_lead : ∀ s : List Char, ∃ t, s = beforeDot s ++ t := by
  intro s
  induction s with
  | nil => exact ⟨[], rfl⟩
  | cons c cs ih =>
    by_cases hc : c = '.'
    · subst hc; exact ⟨'.' :: cs, by simp [beforeDot]⟩
    · obtain ⟨t, ht⟩ := ih
      exact ⟨t, by simp only [beforeDot, if_neg hc, List.cons_append]; rw [← ht]⟩

theorem strMentions_self (s : String) : strMentions s s :=
  ⟨[], [], by simp⟩

theorem strMentions_mid (a m b : String) : strMentions (a ++ m ++ b) m :=
  ⟨a.data, b.data, by simp [String.data_append]⟩

theorem strMentions_append_left (a : String) {b x : String} (h : strMentions b x) :
    strMentions (a ++ b) x := by
  obtain ⟨p, q, hp⟩ := h
  exact ⟨a.data ++ p, q, by rw [String.data_append, hp]; simp⟩

theorem strMentions_append_right (b : String) {a x : String} (h : strMentions a x) :
    strMentions (a ++ b) x := by
  obtain ⟨p, q, hp⟩ := h
  exact ⟨p, q ++ b.data, by rw [String.data_append, hp]; simp⟩

theorem strMentions_mono {a b c : String} (h1 : strMentions a b) (h2 : strMentions b c) :
    strMentions a c := by
  obtain ⟨p, q, hp⟩ := h1
  obtain ⟨r, s, hr⟩ := h2
  exact ⟨p ++ r, s ++ q, by rw [hp, hr]; simp⟩

theorem strMentions_topLevel (a : String) : strMentions a (topLevel a) := by
  obtain ⟨t, ht⟩ := beforeDot_lead a.data
  exact ⟨[], t, by simpa [topLevel] using ht⟩

theorem append_ne_empty_left (a b : String) (ha : a ≠ "") : a ++ b ≠ "" := by
  intro h
  apply ha
  have hd := congrArg String.data h
  rw [String.data_append] at hd
  exact String.ext (List.append_eq_nil.mp hd).1

theorem runtimeErrorMsg_ne_empty (m s : String) : runtimeErrorMsg m s ≠ "" := by
  unfold runtimeErrorMsg
  exact append_ne_empty_left _ _ (append_ne_empty_left _ _ (by decide))

theorem joinLines_mentions {l : List String} {e : String} (h : e ∈ l) :
    strMentions (joinLines l) e := by
  induction l with
  | nil => cases h
  | cons x rest ih =>
    cases rest with
    | nil =>
      have : e = x := by simpa using h
      subst this
      simpa [joinLines] using strMentions_self e
    | cons y rest2 =>
      rcases List.mem_cons.mp h with he | hmem
      · subst he
        show strMentions (e ++ "\n" ++ joinLines (y :: rest2)) e
        exact strMentions_append_right _ (strMentions_append_right _ (strMentions_self e))
      · show strMentions (x ++ "\n" ++ joinLines (y :: rest2)) e
        exact strMentions_append_left _ (ih hmem)

/-! Helper lemmas about the validator. -/

theorem mem_validate {nodes : List PyNode} {n : PyNode} {msg : String}
    (hn : n ∈ nodes) (hm : msg ∈ nodeErrors n) : msg ∈ validate nodes := by
  induction nodes with
  | nil => cases hn
  | cons x rest ih =>
    rcases List.mem_cons.mp hn with he | hmem
    · subst he; exact List.mem_append_left _ hm
    · exact List.mem_append_right _ (ih hmem)

theorem validate_ne_nil {nodes : List PyNode} {n : PyNode} {msg : String}
    (hn : n ∈ nodes) (hm : msg ∈ nodeErrors n) : validate nodes ≠ [] :=
  List.ne_nil_of_mem (mem_validate hn hm)

/-- The early return of `execute` when the validator reports violations:
the result is built before the code is compiled, the namespace is built,
or anything is executed, so it does not depend on `compileFault` or on the
behaviour of the program, and the figure state is untouched. -/
theorem execute_refusal (timeoutSec : Nat) (fp : Option String) (figs0 : List Figure)
    (nodes : List PyNode) (cf : Option String) (beh : RunBehavior)
    (h : validate nodes ≠ []) :
    execute timeoutSec fp figs0 (.parsed nodes cf beh) =
      { result := { success := false, output := "",
                    error := "Security validation failed:\n" ++ joinLines (validate nodes),
                    dataframe := none, images := [] },
        figsAfter := figs0, elapsed := 0 } := by
  have hne : (validate nodes).isEmpty = false := by
    simp [List.isEmpty_eq_false, h]
  simp [execute, hne]

/-- A dotted-name prefix `matplotlib.` forces the top-level module to be
`matplotlib` (used to relate the branches of `_safe_import`). -/
theorem topLevel_of_matplotlib_lead {name : String}
    (h : strStartsWith name "matplotlib." = true) : topLevel name = "matplotlib" := by
  simp only [strStartsWith] at h
  obtain ⟨t, ht⟩ := (isLeadOf_iff _ _).mp h
  show (⟨beforeDot name.data⟩ : String) = "matplotlib"
  rw [ht]
  show (⟨beforeDot (("matplotlib" : String).data ++ '.' :: t)⟩ : String) = "matplotlib"
  rw [beforeDot_append _ _ (by decide)]

/-- A parsed tree contains an import (or from-import) statement one of whose
dotted module names has top-level module `modName`. -/
def containsImportOf (nodes : List PyNode) (modName : String) : Prop :=
  (∃ aliases a, PyNode.importStmt aliases ∈ nodes ∧ a ∈ aliases ∧ topLevel a = modName)
  ∨ (∃ m, PyNode.importFrom (some m) ∈ nodes ∧ topLevel m = modName)

/-- A fixed idle behaviour used by concrete witnesses: the code would finish
immediately, print nothing, open no figure and bind nothing. -/
def idleBeh : RunBehavior :=
  { duration := 1, stdoutText := "", stderrText := "", figsCreated := [],
    outcome := .completed .absent .absent }

/-- C2: a source containing an import (or from-import) of a module whose
top-level name is blocked is refused by `execute` with success=false, a
non-empty error mentioning the offending module name, empty output, no
dataframe, no images; the early return is taken before the namespace is
built or anything runs, so the figure state is unchanged, no time is
spent, and the result does not depend on the behaviour of the program. -/
theorem C2_blocked_import_refused
    (timeoutSec : Nat) (fp : Option String) (figs0 : List Figure)
    (nodes : List PyNode) (cf : Option String) (beh : RunBehavior)
    (modName : String) (hmod : modName ∈ BLOCKED_MODULES)
    (h : containsImportOf nodes modName) :
    execute timeoutSec fp figs0 (.parsed nodes cf beh) =
      { result := { success := false, output := "",
                    error := "Security validation failed:\n" ++ joinLines (validate nodes),
                    dataframe := none, images := [] },
        figsAfter := figs0, elapsed := 0 } ∧
    "Security validation failed:\n" ++ joinLines (validate nodes) ≠ "" ∧
    strMentions ("Security validation failed:\n" ++ joinLines (validate nodes)) modName := by
  have key : ∃ n msg, n ∈ nodes ∧ msg ∈ nodeErrors n ∧ strMentions msg modName := by
    rcases h with ⟨aliases, a, hni, ha, htop⟩ | ⟨m, hni, htop⟩
    · have hcont : BLOCKED_MODULES.contains (topLevel a) = true := by simp [htop, hmod]
      refine ⟨.importStmt aliases, "Import of \x27" ++ a ++ "\x27 is not allowed", hni, ?_, ?_⟩
      · exact List.mem_map_of_mem _ (List.mem_filter.mpr ⟨ha, hcont⟩)
      · exact strMentions_mono (strMentions_mid "Import of \x27" a "\x27 is not allowed")
          (htop ▸ strMentions_topLevel a)
    · have hmem : topLevel m ∈ BLOCKED_MODULES := by rw [htop]; exact hmod
      refine ⟨.importFrom (some m), "Import from \x27" ++ m ++ "\x27 is not allowed", hni, ?_, ?_⟩
      · simp [nodeErrors, hmem]
      · exact strMentions_mono (strMentions_mid "Import from \x27" m "\x27 is not allowed")
          (htop ▸ strMentions_topLevel m)
  obtain ⟨n, msg, hni, hmsg, hmen⟩ := key
  have hvne := validate_ne_nil hni hmsg
  refine ⟨execute_refusal timeoutSec fp figs0 nodes cf beh hvne,
    append_ne_empty_left _ _ (by decide), ?_⟩
  exact strMentions_append_left _
    (strMentions_mono (joinLines_mentions (mem_validate hni hmsg)) hmen)

/-- Witness for C2: the concrete scenario `import os; os.system(..)` of the spec
(an Import node for `os`, plus the attribute call the statement would also
contain) is refused outright. -/
theorem C2_witness :
    execute 30 (some "/tmp/data.xlsx") [] (.parsed [.importStmt ["os"]] none idleBeh) =
      { result := { success := false, output := "",
                    error := "Security validation failed:\nImport of \x27os\x27 is not allowed",
                    dataframe := none, images := [] },
        figsAfter := [], elapsed := 0 } ∧
    strMentions ("Security validation failed:\nImport of \x27os\x27 is not allowed") "os" := by
  obtain ⟨h1, _h2, h3⟩ := C2_blocked_import_refused 30 (some "/tmp/data.xlsx") []
    [.importStmt ["os"]] none idleBeh "os" (by decide)
    (Or.inl ⟨["os"], "os", by simp, by simp, by decide⟩)
  have he : ("Security validation failed:\n" ++ joinLines (validate [PyNode.importStmt ["os"]]))
      = "Security validation failed:\nImport of \x27os\x27 is not allowed" := by decide
  constructor
  · rw [h1]; rw [he]
  · exact he ▸ h3

/-- C3: an attribute access whose name has the dunder shape and is not one
of `__init__`, `__str__`, `__repr__` makes the validator report a
violation, and `execute` refuses the code at validation time: the early
return does not depend on the compile step or on the behaviour of the program
(both are universally quantified and absent from the returned value), so
nothing is ever compiled or executed. -/
theorem C3_dunder_refused
    (timeoutSec : Nat) (fp : Option String) (figs0 : List Figure)
    (nodes : List PyNode) (cf : Option String) (beh : RunBehavior) (attr : String)
    (hs : strStartsWith attr "__" = true) (he : strEndsWith attr "__" = true)
    (h1 : attr ≠ "__init__") (h2 : attr ≠ "__str__") (h3 : attr ≠ "__repr__")
    (hn : PyNode.attributeAccess attr ∈ nodes) :
    validate nodes ≠ [] ∧
    execute timeoutSec fp figs0 (.parsed nodes cf beh) =
      { result := { success := false, output := "",
                    error := "Security validation failed:\n" ++ joinLines (validate nodes),
                    dataframe := none, images := [] },
        figsAfter := figs0, elapsed := 0 } := by
  have hmsg : ("Access to \x27" ++ attr ++ "\x27 is not allowed") ∈
      nodeErrors (.attributeAccess attr) := by
    simp [nodeErrors, hs, he, h1, h2, h3]
  exact ⟨validate_ne_nil hn hmsg,
    execute_refusal timeoutSec fp figs0 nodes cf beh (validate_ne_nil hn hmsg)⟩

/-- Witness for C3: probing `__globals__` is refused. -/
theorem C3_witness :
    validate [.attributeAccess "__globals__"] ≠ [] ∧
    execute 30 none [] (.parsed [.attributeAccess "__globals__"] none idleBeh) =
      { result := { success := false, output := "",
                    error := "Security validation failed:\n" ++
                      joinLines (validate [.attributeAccess "__globals__"]),
                    dataframe := none, images := [] },
        figsAfter := [], elapsed := 0 } :=
  C3_dunder_refused 30 none [] [.attributeAccess "__globals__"] none idleBeh "__globals__"
    (by decide) (by decide) (by decide) (by decide) (by decide) (by simp)

/-- C10: the validator flags a blocked identifier in every expression
context, store and delete included, because `visit_Name` never inspects
the context: the violation list of a Name node is literally independent of
its context, and any occurrence makes `execute` refuse the code unrun. -/
theorem C10_store_context_flagged
    (timeoutSec : Nat) (fp : Option String) (figs0 : List Figure)
    (nodes : List PyNode) (cf : Option String) (beh : RunBehavior)
    (id : String) (ctx : ExprCtx)
    (hid : id ∈ BLOCKED_NAMES) (hn : PyNode.nameRef id ctx ∈ nodes) :
    nodeErrors (.nameRef id ctx) = nodeErrors (.nameRef id .load) ∧
    validate nodes ≠ [] ∧
    execute timeoutSec fp figs0 (.parsed nodes cf beh) =
      { result := { success := false, output := "",
                    error := "Security validation failed:\n" ++ joinLines (validate nodes),
                    dataframe := none, images := [] },
        figsAfter := figs0, elapsed := 0 } := by
  have hmsg : ("Use of \x27" ++ id ++ "\x27 is not allowed") ∈ nodeErrors (.nameRef id ctx) := by
    simp [nodeErrors, hid]
  exact ⟨rfl, validate_ne_nil hn hmsg,
    execute_refusal timeoutSec fp figs0 nodes cf beh (validate_ne_nil hn hmsg)⟩

/-- Witness for C10: the pure assignment `open = 1` (a Name node for `open`
in Store context) is rejected and never executed. -/
theorem C10_witness :
    nodeErrors (.nameRef "open" .store) = nodeErrors (.nameRef "open" .load) ∧
    validate [.nameRef "open" .store] ≠ [] ∧
    execute 30 none [] (.parsed [.nameRef "open" .store] none idleBeh) =
      { result := { success := false, output := "",
                    error := "Security validation failed:\n" ++
                      joinLines (validate [.nameRef "open" .store]),
                    dataframe := none, images := [] },
        figsAfter := [], elapsed := 0 } :=
  C10_store_context_flagged 30 none [] [.nameRef "open" .store] none idleBeh "open" .store
    (by decide) (by simp)

/-- C4: case analysis of the import interceptor `_safe_import`.  Each of
the four pre-loaded libraries resolves to its already-loaded handle; a
submodule path under matplotlib resolves to the loaded matplotlib handle;
a name whose top-level module is blocked raises an ImportError naming it
(this clause holds unconditionally because a blocked top-level excludes
the earlier branches); and every other name raises an ImportError with
the explicit not-supported message. -/
theorem C4_safe_import_cases (name : String) :
    (name = "pandas" → safe_import name = .ok .pandasMod) ∧
    (name = "numpy" → safe_import name = .ok .numpyMod) ∧
    (name = "matplotlib" → safe_import name = .ok .matplotlibMod) ∧
    (name = "seaborn" → safe_import name = .ok .seabornMod) ∧
    (strStartsWith name "matplotlib." = true → safe_import name = .ok .matplotlibMod) ∧
    (topLevel name ∈ BLOCKED_MODULES →
      safe_import name =
        .error ("Import of \x27" ++ name ++ "\x27 is not allowed for security reasons")) ∧
    (name ≠ "pandas" → name ≠ "numpy" → name ≠ "matplotlib" → name ≠ "seaborn" →
      strStartsWith name "matplotlib." = false → topLevel name ∉ BLOCKED_MODULES →
      safe_import name =
        .error ("Cannot import \x27" ++ name ++
          "\x27. Only pandas, numpy, matplotlib, and seaborn are allowed.")) := by
  refine ⟨?_, ?_, ?_, ?_, ?_, ?_, ?_⟩
  · rintro rfl; rfl
  · rintro rfl; rfl
  · rintro rfl; rfl
  · rintro rfl; rfl
  · intro hm
    have h1 : name ≠ "pandas" := by rintro rfl; revert hm; decide
    have h2 : name ≠ "numpy" := by rintro rfl; revert hm; decide
    have h3 : name ≠ "matplotlib" := by rintro rfl; revert hm; decide
    have h4 : name ≠ "seaborn" := by rintro rfl; revert hm; decide
    unfold safe_import
    rw [if_neg h1, if_neg h2, if_neg h3, if_neg h4, if_pos hm]
  · intro hb
    have h1 : name ≠ "pandas" := by rintro rfl; revert hb; decide
    have h2 : name ≠ "numpy" := by rintro rfl; revert hb; decide
    have h3 : name ≠ "matplotlib" := by rintro rfl; revert hb; decide
    have h4 : name ≠ "seaborn" := by rintro rfl; revert hb; decide
    have h5 : ¬ (strStartsWith name "matplotlib." = true) := by
      intro hsw
      rw [topLevel_of_matplotlib_lead hsw] at hb
      revert hb; decide
    have hc : BLOCKED_MODULES.contains (topLevel name) = true := by simp [hb]
    unfold safe_import
    rw [if_neg h1, if_neg h2, if_neg h3, if_neg h4, if_neg h5, if_pos hc]
  · intro h1 h2 h3 h4 h5 h6
    have h5n : ¬ (strStartsWith name "matplotlib." = true) := by simp [h5]
    have hc : ¬ (BLOCKED_MODULES.contains (topLevel name) = true) := by simp [h6]
    unfold safe_import
    rw [if_neg h1, if_neg h2, if_neg h3, if_neg h4, if_neg h5n, if_neg hc]

/-- Witness for C4: one concrete name per branch of the interceptor. -/
theorem C4_witness :
    safe_import "numpy" = .ok .numpyMod ∧
    safe_import "matplotlib.pyplot" = .ok .matplotlibMod ∧
    safe_import "subprocess" =
      .error "Import of \x27subprocess\x27 is not allowed for security reasons" ∧
    safe_import "math" =
      .error "Cannot import \x27math\x27. Only pandas, numpy, matplotlib, and seaborn are allowed." := by
  refine ⟨(C4_safe_import_cases "numpy").2.1 rfl,
    (C4_safe_import_cases "matplotlib.pyplot").2.2.2.2.1 (by decide),
    ?_, ?_⟩
  · have h := (C4_safe_import_cases "subprocess").2.2.2.2.2.1 (by decide)
    rw [h]; rfl
  · have h := (C4_safe_import_cases "math").2.2.2.2.2.2 (by decide) (by decide) (by decide)
      (by decide) (by decide) (by decide)
    rw [h]; rfl

/-- The fixed descriptive prefixes of the five failure categories of
`execute` (syntax error, security validation, sandbox fault, timeout,
runtime/extraction error). -/
def errorLeads : List String :=
  ["Syntax error: ", "Security validation failed:\n", "Sandbox error: ",
   "Execution timeout: Code took longer than ", "Runtime error: "]

/-- Exhaustive case analysis of `execute`: every call either succeeds with
an empty error, or fails with an error that extends one of the five
descriptive prefixes and is in particular non-empty. -/
theorem execute_cases (t : Nat) (fp : Option String) (figs0 : List Figure)
    (src : ParsedSource) :
    ((execute t fp figs0 src).result.success = true ∧
      (execute t fp figs0 src).result.error = "") ∨
    ((execute t fp figs0 src).result.success = false ∧
      ∃ lead, lead ∈ errorLeads ∧ ∃ rest,
        (execute t fp figs0 src).result.error = lead ++ rest ∧
        (execute t fp figs0 src).result.error ≠ "") := by
  cases src with
  | syntaxError msg =>
      right
      exact ⟨rfl, "Syntax error: ", by simp [errorLeads], msg, rfl,
        append_ne_empty_left _ _ (by decide)⟩
  | parsed nodes cf beh =>
      by_cases hv : (validate nodes).isEmpty = true
      · cases cf with
        | some msg =>
            right
            simp only [execute, hv, if_true]
            exact ⟨by trivial, "Sandbox error: ", by simp [errorLeads], msg, by trivial,
              append_ne_empty_left _ _ (by decide)⟩
        | none =>
            by_cases ht : t < beh.duration
            · right
              simp only [execute, hv, if_true, ht]
              refine ⟨by trivial, "Execution timeout: Code took longer than ", by simp [errorLeads],
                toString t ++ " seconds", ?_, ?_⟩
              · simpa using String.append_assoc "Execution timeout: Code took longer than "
                  (toString t) " seconds"
              · simpa using append_ne_empty_left
                  ("Execution timeout: Code took longer than " ++ toString t) " seconds"
                  (append_ne_empty_left _ _ (by decide))
            · cases hout : beh.outcome with
              | raised msg =>
                  right
                  simp only [execute, hv, if_true, if_neg ht, hout]
                  refine ⟨by trivial, "Runtime error: ", by simp [errorLeads], ?_, ?_, ?_⟩
                  · exact msg ++ (if beh.stderrText = "" then "" else "\n" ++ beh.stderrText)
                  · exact String.append_assoc _ _ _
                  · exact runtimeErrorMsg_ne_empty _ _
              | completed dfB resB =>
                  cases hex : extractRecords dfB resB with
                  | error msg =>
                      right
                      simp only [execute, hv, if_true, if_neg ht, hout, hex]
                      refine ⟨by trivial, "Runtime error: ", by simp [errorLeads], ?_, ?_, ?_⟩
                      · exact msg ++ (if beh.stderrText = "" then "" else "\n" ++ beh.stderrText)
                      · exact String.append_assoc _ _ _
                      · exact runtimeErrorMsg_ne_empty _ _
                  | ok dfOpt =>
                      cases henc : (encodeFigures (figs0 ++ beh.figsCreated)).2 with
                      | some msg =>
                          right
                          simp only [execute, hv, if_true, if_neg ht, hout, hex, henc]
                          refine ⟨by trivial, "Runtime error: ", by simp [errorLeads], ?_, ?_, ?_⟩
                          · exact msg ++
                              (if beh.stderrText = "" then "" else "\n" ++ beh.stderrText)
                          · exact String.append_assoc _ _ _
                          · exact runtimeErrorMsg_ne_empty _ _
                      | none =>
                          left
                          simp only [execute, hv, if_true, if_neg ht, hout, hex, henc]
                          exact ⟨by trivial, by trivial⟩
      · right
        have hne : validate nodes ≠ [] := by
          intro hnil
          rw [hnil] at hv
          exact hv rfl
        rw [execute_refusal t fp figs0 nodes cf beh hne]
        exact ⟨rfl, "Security validation failed:\n", by simp [errorLeads],
          joinLines (validate nodes), rfl, append_ne_empty_left _ _ (by decide)⟩

/-- C7: for every input, the result of `execute` satisfies success=true if
and only if error is the empty string: every failing branch (syntax error,
validation failure, sandbox fault, timeout, runtime error, extraction
error) writes a non-empty error, and the success branch leaves it empty. -/
theorem C7_success_iff_no_error (t : Nat) (fp : Option String) (figs0 : List Figure)
    (src : ParsedSource) :
    (execute t fp figs0 src).result.success = true ↔
    (execute t fp figs0 src).result.error = "" := by
  rcases execute_cases t fp figs0 src with ⟨hs, he⟩ | ⟨hs, _, _, _, _, hne⟩
  · simp [hs, he]
  · simp [hs, hne]

/-- C8: `execute` is a total function into the result record whose fields
are exactly success, output, error, dataframe and images — no input can
make it propagate a fault to the caller, every failure mode of the domain
(unparsable source, validation failure, compile fault, timeout, raising
code, extraction fault) included — and every failure is surfaced as a
descriptive error string extending one of the five taxonomy prefixes. -/
theorem C8_total_wellformed (t : Nat) (fp : Option String) (figs0 : List Figure)
    (src : ParsedSource) :
    ((execute t fp figs0 src).result.success = true ∧
      (execute t fp figs0 src).result.error = "") ∨
    ((execute t fp figs0 src).result.success = false ∧
      ∃ lead, lead ∈ errorLeads ∧ ∃ rest,
        (execute t fp figs0 src).result.error = lead ++ rest) := by
  rcases execute_cases t fp figs0 src with ⟨hs, he⟩ | ⟨hs, lead, hmem, rest, heq, _⟩
  · exact Or.inl ⟨hs, he⟩
  · exact Or.inr ⟨hs, lead, hmem, rest, heq⟩

/-- C9: when execution itself succeeds but the result-extraction phase
fails — the table conversion raises, or the encoding of a figure raises — the
error is caught and reported while the output field still carries the
stdout text the run produced (it is assigned before extraction begins). -/
theorem C9_extraction_error_keeps_output
    (t : Nat) (fp : Option String) (figs0 : List Figure)
    (nodes : List PyNode) (beh : RunBehavior) (dfB resB : Binding) (msg : String)
    (hv : validate nodes = []) (hd : beh.duration ≤ t)
    (hout : beh.outcome = .completed dfB resB)
    (hfail : extractRecords dfB resB = .error msg ∨
      (∃ dfOpt, extractRecords dfB resB = .ok dfOpt ∧
        (encodeFigures (figs0 ++ beh.figsCreated)).2 = some msg)) :
    (execute t fp figs0 (.parsed nodes none beh)).result.output = beh.stdoutText ∧
    (execute t fp figs0 (.parsed nodes none beh)).result.success = false ∧
    (execute t fp figs0 (.parsed nodes none beh)).result.error =
      runtimeErrorMsg msg beh.stderrText := by
  have hve : (validate nodes).isEmpty = true := by simp [hv]
  have ht : ¬ t < beh.duration := Nat.not_lt.mpr hd
  rcases hfail with hex | ⟨dfOpt, hex, henc⟩
  · simp only [execute, hve, if_true, if_neg ht, hout, hex]
    exact ⟨by trivial, by trivial, by trivial⟩
  · simp only [execute, hve, if_true, if_neg ht, hout, hex, henc]
    exact ⟨by trivial, by trivial, by trivial⟩

/-- Behaviour used by the C9 witness: a run that prints and then binds a
DataFrame whose record conversion raises at extraction time. -/
def behC9 : RunBehavior :=
  { duration := 1, stdoutText := "partial", stderrText := "", figsCreated := [],
    outcome := .completed (.dataFrame { rows := [], convFault := some "boom" }) .absent }

/-- Witness for C9: the stdout text survives the extraction failure. -/
theorem C9_witness :
    (execute 30 none [] (.parsed [] none behC9)).result.output = "partial" ∧
    (execute 30 none [] (.parsed [] none behC9)).result.success = false ∧
    (execute 30 none [] (.parsed [] none behC9)).result.error = "Runtime error: boom" := by
  obtain ⟨h1, h2, h3⟩ := C9_extraction_error_keeps_output 30 none [] [] behC9
    (.dataFrame { rows := [], convFault := some "boom" }) .absent "boom"
    rfl (by decide) rfl (Or.inl rfl)
  exact ⟨h1, h2, by rw [h3]; rfl⟩

/-- Behaviour for the C1 counterexample: the code opens one figure and then
raises, so the figure-closing line of the driver (which sits on the success path
only) is never reached. -/
def behC1 : RunBehavior :=
  { duration := 1, stdoutText := "", stderrText := "", figsCreated := [{ encoding := "leak" }],
    outcome := .raised "boom" }

/-- Counterexample to C1: a run that raises a runtime error after creating
a figure leaves that figure open after the call returns — `plt.close` is
executed only on the success path, so closing is not unconditional. -/
theorem C1_counterexample :
    (execute 30 none [] (.parsed [] none behC1)).result.success = false ∧
    (execute 30 none [] (.parsed [] none behC1)).result.error = "Runtime error: boom" ∧
    (execute 30 none [] (.parsed [] none behC1)).figsAfter = [{ encoding := "leak" }] ∧
    (execute 30 none [] (.parsed [] none behC1)).figsAfter ≠ [] := by decide

/-- C1 amended: after a call that returns success=true all figure surfaces
are closed, and a successful run that starts with zero pre-existing figures
and creates exactly two plot surfaces returns exactly their two base64
strings; but the closing is conditional on success — failing runs (see the
counterexample) may leave figures open. -/
theorem C1_amended
    (t : Nat) (fp : Option String) (figs0 : List Figure) (src : ParsedSource)
    (nodes : List PyNode) (beh : RunBehavior) (e1 e2 : String)
    (hvalid : validate nodes = []) (hdur : beh.duration ≤ t)
    (dfB resB : Binding) (hout : beh.outcome = .completed dfB resB)
    (dfOpt : Option (List Record)) (hex : extractRecords dfB resB = .ok dfOpt)
    (hfigs : beh.figsCreated = [{ encoding := e1 }, { encoding := e2 }]) :
    ((execute t fp figs0 src).result.success = true →
      (execute t fp figs0 src).figsAfter = []) ∧
    (execute t fp [] (.parsed nodes none beh)).result.success = true ∧
    (execute t fp [] (.parsed nodes none beh)).result.images = [e1, e2] ∧
    (execute t fp [] (.parsed nodes none beh)).figsAfter = [] := by
  have hclose : (execute t fp figs0 src).result.success = true →
      (execute t fp figs0 src).figsAfter = [] := by
    cases src with
    | syntaxError msg => intro h; simp [execute] at h
    | parsed nodes' cf' beh' =>
        by_cases hv : (validate nodes').isEmpty = true
        · cases cf' with
          | some msg => simp [execute, hv]
          | none =>
              by_cases ht : t < beh'.duration
              · simp [execute, hv, ht]
              · cases hout' : beh'.outcome with
                | raised msg => simp [execute, hv, ht, hout']
                | completed dfB' resB' =>
                    cases hex' : extractRecords dfB' resB' with
                    | error msg => simp [execute, hv, ht, hout', hex']
                    | ok dfOpt' =>
                        cases henc' : (encodeFigures (figs0 ++ beh'.figsCreated)).2 with
                        | some msg => simp [execute, hv, ht, hout', hex', henc']
                        | none => simp [execute, hv, ht, hout', hex', henc']
        · intro hsucc
          have hne : validate nodes' ≠ [] := by
            intro hn; rw [hn] at hv; exact hv rfl
          rw [execute_refusal t fp figs0 nodes' cf' beh' hne] at hsucc
          simp at hsucc
  have hve : (validate nodes).isEmpty = true := by simp [hvalid]
  have ht : ¬ t < beh.duration := Nat.not_lt.mpr hdur
  have henc : encodeFigures beh.figsCreated = ([e1, e2], none) := by
    rw [hfigs]; rfl
  refine ⟨hclose, ?_⟩
  simp only [execute, hve, if_true, if_neg ht, hout, hex, List.nil_append, henc]
  exact ⟨by trivial, by trivial, by trivial⟩

/-- Behaviour for the C1 witness: a clean run creating exactly two figures. -/
def behC1w : RunBehavior :=
  { duration := 1, stdoutText := "", stderrText := "", figsCreated :=
      [{ encoding := "imgA" }, { encoding := "imgB" }],
    outcome := .completed .absent .absent }

/-- Witness for the amended C1: two plot surfaces give exactly two images
and all plotting state is cleared after the successful call. -/
theorem C1_witness :
    (execute 30 none [] (.parsed [] none behC1w)).result.success = true ∧
    (execute 30 none [] (.parsed [] none behC1w)).result.images = ["imgA", "imgB"] ∧
    (execute 30 none [] (.parsed [] none behC1w)).figsAfter = [] := by
  obtain ⟨_, h2, h3, h4⟩ := C1_amended 30 none [] (.parsed [] none behC1w) [] behC1w
    "imgA" "imgB" rfl (by decide) .absent .absent rfl none rfl rfl
  exact ⟨h2, h3, h4⟩

/-- Behaviour for the C5 counterexample: a successful run binding `df` to a
DataFrame one of whose cells holds a Python list (pandas object dtype), as
produced by e.g. building a DataFrame from a column of lists. -/
def behC5 : RunBehavior :=
  { duration := 1, stdoutText := "", stderrText := "", figsCreated := [],
    outcome := .completed (.dataFrame { rows := [[("a", .pyObj "listCell")]] }) .absent }

/-- Counterexample to C5: `to_safe` has no case for values outside
timestamps, datetimes, numpy scalars and floats, and returns them
unchanged, so a list-valued cell reaches the returned dataframe as a
non-primitive. -/
theorem C5_counterexample :
    (execute 30 none [] (.parsed [] none behC5)).result.success = true ∧
    (execute 30 none [] (.parsed [] none behC5)).result.dataframe =
      some [[("a", Cell.pyObj "listCell")]] ∧
    isJsonPrim (Cell.pyObj "listCell") = false := by decide

/-- C5 amended: after a successful run with a DataFrame bound to the
primary name the dataframe field holds at most 5 records, each value being
the image of the source cell under the JSON-safe conversion: timestamps
and datetimes become ISO strings, NaN and positive or negative infinity
(plain floats or numpy scalars) become null — never the strings
nan or inf — while values of unrecognized types pass through unchanged
and may therefore be non-primitive. -/
theorem C5_amended
    (t : Nat) (fp : Option String) (figs0 : List Figure)
    (nodes : List PyNode) (beh : RunBehavior) (rows : List Record) (resB : Binding)
    (hvalid : validate nodes = []) (hdur : beh.duration ≤ t)
    (hout : beh.outcome = .completed (.dataFrame { rows := rows, convFault := none }) resB)
    (henc : (encodeFigures (figs0 ++ beh.figsCreated)).2 = none) :
    (execute t fp figs0 (.parsed nodes none beh)).result.success = true ∧
    (execute t fp figs0 (.parsed nodes none beh)).result.dataframe =
      some (make_json_safe_records (rows.take 5)) ∧
    (make_json_safe_records (rows.take 5)).length ≤ 5 ∧
    (∀ iso, to_safe (.timestamp iso) = .pyStr iso ∧ to_safe (.dtime iso) = .pyStr iso) ∧
    to_safe (.pyFloat .nan) = .pyNone ∧
    to_safe (.pyFloat .inf) = .pyNone ∧
    to_safe (.pyFloat .negInf) = .pyNone ∧
    to_safe (.npScalar (.npFloat .nan)) = .pyNone ∧
    to_safe (.npScalar (.npFloat .inf)) = .pyNone ∧
    to_safe (.npScalar (.npFloat .negInf)) = .pyNone ∧
    (∀ tag, to_safe (.pyObj tag) = .pyObj tag) := by
  have hve : (validate nodes).isEmpty = true := by simp [hvalid]
  have ht : ¬ t < beh.duration := Nat.not_lt.mpr hdur
  have hex : extractRecords (.dataFrame { rows := rows, convFault := none }) resB =
      .ok (some (make_json_safe_records (rows.take 5))) := by cases resB <;> rfl
  refine ⟨?_, ?_, ?_, fun iso => ⟨rfl, rfl⟩, rfl, rfl, rfl, rfl, rfl, rfl, fun tag => rfl⟩
  · simp only [execute, hve, if_true, if_neg ht, hout, hex, henc]
  · simp only [execute, hve, if_true, if_neg ht, hout, hex, henc]
  · simp only [make_json_safe_records, List.length_map, List.length_take]
    exact min_le_left _ _

/-- Behaviour for the C5 witness: a successful run whose DataFrame holds a
NaN cell and a timestamp cell. -/
def behC5w : RunBehavior :=
  { duration := 1, stdoutText := "", stderrText := "", figsCreated := [],
    outcome := .completed (.dataFrame { rows :=
      [[("x", .pyFloat .nan), ("t", .timestamp "2024-01-01T00:00:00")]] }) .absent }

/-- Witness for the amended C5: the NaN cell comes back as null and the
timestamp cell as its ISO string. -/
theorem C5_witness :
    (execute 30 none [] (.parsed [] none behC5w)).result.success = true ∧
    (execute 30 none [] (.parsed [] none behC5w)).result.dataframe =
      some [[("x", Cell.pyNone), ("t", Cell.pyStr "2024-01-01T00:00:00")]] := by
  obtain ⟨h1, h2, _⟩ := C5_amended 30 none [] [] behC5w
    [[("x", .pyFloat .nan), ("t", .timestamp "2024-01-01T00:00:00")]] .absent
    rfl (by decide) rfl rfl
  exact ⟨h1, by rw [h2]; rfl⟩

/-- A run that needs `d` seconds and otherwise does nothing, used for the
timeout analysis of C6. -/
def slowBeh (d : Nat) : RunBehavior :=
  { duration := d, stdoutText := "", stderrText := "", figsCreated := [],
    outcome := .completed .absent .absent }

/-- Counterexample to C6: there is no bound on the overrun past the
configured timeout within which `execute` returns — leaving the
`with ThreadPoolExecutor` block runs shutdown with wait=true, which joins
the worker thread, so the call blocks for the full running time of the code. -/
theorem C6_counterexample :
    ¬ ∃ bound : Nat, ∀ d : Nat,
        (execute 30 none [] (.parsed [] none (slowBeh d))).elapsed ≤ 30 + bound := by
  rintro ⟨bound, h⟩
  have hd := h (31 + bound)
  have ht : 30 < 31 + bound := by omega
  have he : (execute 30 none [] (.parsed [] none (slowBeh (31 + bound)))).elapsed =
      31 + bound := by
    simp [execute, validate, slowBeh, ht]
  rw [he] at hd
  omega

/-- C6 amended: a run exceeding the configured timeout makes `execute`
return success=false with the timeout-specific message naming the bound,
but only after the worker has finished: the elapsed time is the full
duration of the code (unbounded overrun), and figures the abandoned run created
stay open. -/
theorem C6_amended
    (t : Nat) (fp : Option String) (figs0 : List Figure)
    (nodes : List PyNode) (beh : RunBehavior)
    (hvalid : validate nodes = []) (ht : t < beh.duration) :
    (execute t fp figs0 (.parsed nodes none beh)).result.success = false ∧
    (execute t fp figs0 (.parsed nodes none beh)).result.error =
      "Execution timeout: Code took longer than " ++ toString t ++ " seconds" ∧
    (execute t fp figs0 (.parsed nodes none beh)).elapsed = beh.duration ∧
    (execute t fp figs0 (.parsed nodes none beh)).figsAfter = figs0 ++ beh.figsCreated := by
  have hve : (validate nodes).isEmpty = true := by simp [hvalid]
  simp only [execute, hve, if_true, if_pos ht]
  exact ⟨by trivial, by trivial, by trivial, by trivial⟩

/-- Witness for the amended C6: a 1000-second run against a 30-second
timeout yields the timeout error, and the call takes the full 1000
seconds to return. -/
theorem C6_witness :
    (execute 30 none [] (.parsed [] none (slowBeh 1000))).result.success = false ∧
    (execute 30 none [] (.parsed [] none (slowBeh 1000))).result.error =
      "Execution timeout: Code took longer than 30 seconds" ∧
    (execute 30 none [] (.parsed [] none (slowBeh 1000))).elapsed = 1000 := by
  obtain ⟨h1, h2, h3, _⟩ := C6_amended 30 none [] [] (slowBeh 1000) rfl (by decide)
  exact ⟨h1, by rw [h2]; rfl, h3⟩
